import Mathlib

/-!
Shallow embedding of the World-Sim physics core
(`src/celestial_body.py` and `src/main.py`).

NumPy float vectors are modelled as `List ℝ`.  NumPy raises a broadcast
error when two 1-d arrays of different lengths (other than length 1) are
combined elementwise; no length-1 vector is ever constructed by this
program, so elementwise operations are modelled as `Option`-valued
functions that succeed exactly when the two operand lengths agree, `none`
standing for the raised `ValueError`.
-/

/-- Elementwise NumPy addition of two 1-d arrays (`a + b`). -/
def vecAdd (a b : List ℝ) : Option (List ℝ) :=
  if a.length = b.length then some (List.zipWith (fun x y => x + y) a b) else none

/-- Elementwise NumPy subtraction of two 1-d arrays (`a - b`). -/
def vecSub (a b : List ℝ) : Option (List ℝ) :=
  if a.length = b.length then some (List.zipWith (fun x y => x - y) a b) else none

/-- NumPy vector-times-scalar (`v * c`), always defined. -/
def npMulS (v : List ℝ) (c : ℝ) : List ℝ :=
  v.map (fun x => x * c)

/-- NumPy scalar-times-vector (`c * v`), always defined. -/
noncomputable def npSMul (c : ℝ) (v : List ℝ) : List ℝ :=
  v.map (fun x => c * x)

/-- NumPy vector-divided-by-scalar (`v / c`), always defined. -/
noncomputable def npDivS (v : List ℝ) (c : ℝ) : List ℝ :=
  v.map (fun x => x / c)

/-- `np.zeros(n)`. -/
def npZeros (n : ℕ) : List ℝ :=
  List.replicate n 0

/-- `np.linalg.norm(v)`: the Euclidean norm, square root of the sum of squares. -/
noncomputable def npNorm (v : List ℝ) : ℝ :=
  Real.sqrt ((v.map (fun x => x ^ 2)).sum)

/-- The state of one `CelestialBody` (`src/celestial_body.py`). -/
structure CelestialBody where
  mass : ℝ
  position : List ℝ
  velocity : List ℝ
  acceleration : List ℝ
  radius : ℝ
  color : ℕ × ℕ × ℕ
  trail : List (List ℝ)
  max_trail_length : ℕ
  initial_position : List ℝ
  initial_velocity : List ℝ

/-- `CelestialBody.__init__`: stores the inputs, initializes
`acceleration` to `np.zeros(2)`, an empty trail with cap 500, and keeps
copies of the initial position and velocity (`.copy()` is value copying,
which list values already give us). -/
def CelestialBody.construct (mass : ℝ) (position velocity : List ℝ)
    (radius : ℝ) (color : ℕ × ℕ × ℕ) : CelestialBody :=
  { mass := mass
    position := position
    velocity := velocity
    acceleration := npZeros 2
    radius := radius
    color := color
    trail := []
    max_trail_length := 500
    initial_position := position
    initial_velocity := velocity }

/-- `CelestialBody.calculate_force(self, center_body, scale,
use_constant_acceleration)`: `r = center_body.position - self.position`,
`distance = max(np.linalg.norm(r), 1e-10)`, `direction = r / distance`,
`G = 1.0`, `force = (G * center_body.mass * self.mass / distance**2) *
direction`.  The `scale` and `use_constant_acceleration` parameters are
accepted and never read, exactly as in the source. -/
noncomputable def CelestialBody.calculate_force (self center_body : CelestialBody)
    (scale : ℝ) (use_constant_acceleration : Bool) : Option (List ℝ) :=
  (vecSub center_body.position self.position).bind fun r =>
    let distance := npNorm r
    let distance := max distance 1e-10
    let direction := npDivS r distance
    let G : ℝ := 1.0
    let force_magnitude := G * center_body.mass * self.mass / distance ^ 2
    some (npSMul force_magnitude direction)

/-- `CelestialBody.update_acceleration(self, bodies, scale,
use_constant_acceleration)`: the source sets `center_body = bodies[0]`
and branches on the Python identity test `self is center_body`.  Object
identity is not expressible on values, so the caller supplies `bodies[0]`
as `center_body` together with `self_is_center`, which
`WorldSimulator.update` sets to `true` exactly for the body at index 0 of
the list (the only element that `is` the head in this program). -/
noncomputable def CelestialBody.update_acceleration (self center_body : CelestialBody)
    (self_is_center : Bool) (scale : ℝ)
    (use_constant_acceleration : Bool) : Option CelestialBody :=
  if self_is_center then
    some { self with acceleration := npZeros 2 }
  else
    (self.calculate_force center_body scale use_constant_acceleration).bind fun force =>
      some { self with acceleration := npDivS force self.mass }

/-- `CelestialBody.update_position(self, dt)`: semi-implicit Euler —
`velocity += acceleration * dt`, then `position += velocity * dt`, then
the new position is appended to the trail, popping the front entry when
the trail exceeds `max_trail_length`. -/
def CelestialBody.update_position (self : CelestialBody) (dt : ℝ) : Option CelestialBody :=
  (vecAdd self.velocity (npMulS self.acceleration dt)).bind fun velocity =>
    (vecAdd self.position (npMulS velocity dt)).bind fun position =>
      let trail := self.trail ++ [position]
      some { self with
        velocity := velocity
        position := position
        trail := if self.max_trail_length < trail.length then trail.drop 1 else trail }

/-- `CelestialBody.reset(self)`: restore position and velocity from the
initial copies, zero the acceleration, clear the trail. -/
def CelestialBody.reset (self : CelestialBody) : CelestialBody :=
  { self with
    position := self.initial_position
    velocity := self.initial_velocity
    acceleration := npZeros 2
    trail := [] }

/-- Run `f` over a list left-to-right, stopping at the first failure,
exactly like a Python `for` loop whose body may raise. -/
def mapOpt {α β : Type} (f : α → Option β) : List α → Option (List β)
  | [] => some []
  | a :: as =>
    (f a).bind fun b =>
      (mapOpt f as).bind fun bs =>
        some (b :: bs)

namespace WorldSimulator

/-- `self.G = 1.0`. -/
noncomputable def G : ℝ := 1.0

/-- `self.central_mass = 1000.0`. -/
noncomputable def central_mass : ℝ := 1000.0

/-- `self.dt = 1`: the fixed physics tick. -/
def dt : ℝ := 1

/-- `self.scale = 1e9`. -/
noncomputable def scale : ℝ := 1e9

/-- `self.initial_sun_pos = np.array([0, 0, 0])`. -/
def initial_sun_pos : List ℝ := [0, 0, 0]

/-- `self.orbital_distance = 150`. -/
def orbital_distance : ℝ := 150

/-- `num_outer_bodies = 1` in `create_solar_system`. -/
def num_outer_bodies : ℕ := 1

/-- `WorldSimulator.create_solar_system`: the central body plus
`num_outer_bodies` orbiters placed on a circle of radius
`orbital_distance` with the circular-orbit speed
`sqrt(G * central_mass / orbital_distance)` directed tangentially. -/
noncomputable def create_solar_system : List CelestialBody :=
  let center := CelestialBody.construct central_mass initial_sun_pos [0, 0, 0]
    30 (255, 255, 0)
  let bodies := (List.range num_outer_bodies).map (fun (i : ℕ) =>
    let angle : ℝ := (i : ℝ) * (2 * Real.pi / (num_outer_bodies : ℝ))
    let x := orbital_distance * Real.cos angle
    let y := orbital_distance * Real.sin angle
    let z : ℝ := 0
    let vel_magnitude := Real.sqrt (G * central_mass / orbital_distance)
    let vel_x := -vel_magnitude * Real.sin angle
    let vel_y := vel_magnitude * Real.cos angle
    let vel_z : ℝ := 0
    let g : ℕ := 128 + i * 30
    CelestialBody.construct 10 [x, y, z] [vel_x, vel_y, vel_z]
      10 (0, g, 255))
  [center] ++ bodies

end WorldSimulator

/-- The mutable simulator state touched by the physics core:
`self.bodies`, `self.paused`, `self.use_constant_acceleration`,
`self.simulation_time`.  All other `WorldSimulator` attributes are
constants that are never reassigned. -/
structure SimState where
  bodies : List CelestialBody
  paused : Bool
  use_constant_acceleration : Bool
  simulation_time : ℝ

namespace WorldSimulator

/-- The state right after `WorldSimulator.__init__`: paused, mode flag
off, time 0, bodies from `create_solar_system`. -/
noncomputable def initial_state : SimState :=
  { bodies := create_solar_system
    paused := true
    use_constant_acceleration := false
    simulation_time := 0 }

/-- Phase 1 of `WorldSimulator.update`: the loop
`for body in self.bodies: body.update_acceleration(self.bodies, ...)`.
`bodies[0]` is the attractor; the identity test `self is center_body`
holds only for the head.  The loop only writes each `acceleration` and
reads the attractor's `position`/`mass`, so handing every iteration the
original head is exact even though Python mutates the list in place. -/
noncomputable def update_accelerations (use_constant_acceleration : Bool) :
    List CelestialBody → Option (List CelestialBody)
  | [] => some []
  | center :: rest =>
    (center.update_acceleration center true scale use_constant_acceleration).bind
      fun center' =>
        (mapOpt
          (fun b => b.update_acceleration center false scale use_constant_acceleration)
          rest).bind fun rest' => some (center' :: rest')

/-- `WorldSimulator.update(self, dt)`: no-op when paused; otherwise run
every body's `update_acceleration`, then every body's
`update_position(self.dt)`, then `simulation_time += self.dt`.  The
caller-supplied `hostDt` is accepted and never read, as in the source. -/
noncomputable def update (s : SimState) (hostDt : ℝ) : Option SimState :=
  if s.paused then some s
  else
    (update_accelerations s.use_constant_acceleration s.bodies).bind fun bs1 =>
      (mapOpt (fun b => b.update_position dt) bs1).bind fun bs2 =>
        some { s with bodies := bs2, simulation_time := s.simulation_time + dt }

/-- `WorldSimulator.reset_simulation`: zero the clock, force paused, and
rebuild the whole body list with `create_solar_system`. -/
noncomputable def reset_simulation (s : SimState) : SimState :=
  { s with
    simulation_time := 0
    paused := true
    bodies := create_solar_system }

end WorldSimulator

/-- A sequence of `WorldSimulator.update` calls, one per host-loop frame
`dt` in the list, stopping at the first raised error. -/
noncomputable def updateIter : List ℝ → SimState → Option SimState
  | [], s => some s
  | d :: ds, s => (WorldSimulator.update s d).bind fun s' => updateIter ds s'

/-- A sequence of `CelestialBody.update_position` calls, one per `dt` in
the list, stopping at the first raised error. -/
def updatePosIter : List ℝ → CelestialBody → Option CelestialBody
  | [], b => some b
  | d :: ds, b => (b.update_position d).bind fun b' => updatePosIter ds b'

/-- A small dimension-consistent 2-d central body used as concrete test data. -/
def wBody0 : CelestialBody := CelestialBody.construct 1000 [0, 0] [0, 0] 30 (255, 255, 0)

/-- A small dimension-consistent 2-d orbiting body used as concrete test data. -/
def wBody1 : CelestialBody := CelestialBody.construct 10 [3, 4] [1, 0] 10 (0, 128, 255)

/-- A concrete paused two-body state. -/
def wState : SimState :=
  { bodies := [wBody0, wBody1]
    paused := true
    use_constant_acceleration := false
    simulation_time := 0 }

/-- A concrete body with an empty trail. -/
def tBody : CelestialBody := CelestialBody.construct 1 [0, 0] [0, 0] 1 (0, 0, 0)

/-- Concrete body at the origin, mass 2. -/
def sW : CelestialBody := CelestialBody.construct 2 [0, 0] [0, 0] 1 (0, 0, 0)

/-- Concrete body at distance 5 from the origin, mass 5. -/
def oW : CelestialBody := CelestialBody.construct 5 [3, 4] [0, 0] 1 (0, 0, 0)

/-- Concrete body at position `[5, 5]`, mass 2. -/
def cex5A : CelestialBody := CelestialBody.construct 2 [5, 5] [0, 0] 1 (0, 0, 0)

/-- Concrete body at the same position `[5, 5]`, mass 3. -/
def cex5B : CelestialBody := CelestialBody.construct 3 [5, 5] [0, 0] 1 (0, 0, 0)

/-- Concrete body at position `[7, 7]`, mass 4. -/
def cex6A : CelestialBody := CelestialBody.construct 4 [7, 7] [0, 0] 1 (0, 0, 0)

/-- Concrete body at the same position `[7, 7]`, mass 5. -/
def cex6B : CelestialBody := CelestialBody.construct 5 [7, 7] [0, 0] 1 (0, 0, 0)

/-- Concrete body at position `[1, 2]`, mass 1. -/
def wCoA : CelestialBody := CelestialBody.construct 1 [1, 2] [0, 0] 1 (0, 0, 0)

/-- Concrete body at the same position `[1, 2]`, mass 6. -/
def wCoB : CelestialBody := CelestialBody.construct 6 [1, 2] [0, 0] 1 (0, 0, 0)

/-- The central body exactly as `create_solar_system` builds it. -/
noncomputable def solarCenter : CelestialBody :=
  CelestialBody.construct WorldSimulator.central_mass WorldSimulator.initial_sun_pos
    [0, 0, 0] 30 (255, 255, 0)

/-- A concrete running state with no bodies and nonzero clock. -/
def rState : SimState :=
  { bodies := [], paused := false, use_constant_acceleration := true, simulation_time := 42 }

/-- A concrete running state with no bodies and zero clock. -/
def eState : SimState :=
  { bodies := [], paused := false, use_constant_acceleration := false, simulation_time := 0 }

theorem zipWith_add_right_zero (v w : List ℝ) (hl : v.length = w.length)
    (h0 : ∀ x ∈ w, x = 0) : List.zipWith (fun x y => x + y) v w = v := by
  induction v generalizing w with
  | nil => simp
  | cons a as ih =>
    cases w with
    | nil => simp at hl
    | cons b bs =>
      have hb : b = 0 := h0 b (by simp)
      simp only [List.zipWith, List.cons.injEq]
      exact ⟨by rw [hb, add_zero], ih bs (by simpa using hl) (fun x hx => h0 x (by simp [hx]))⟩

theorem vecAdd_right_zero (v w u : List ℝ) (h : vecAdd v w = some u)
    (h0 : ∀ x ∈ w, x = 0) : u = v := by
  unfold vecAdd at h
  split at h
  · rename_i hl
    obtain rfl : List.zipWith (fun x y => x + y) v w = u := by injection h
    exact zipWith_add_right_zero v w hl h0
  · exact absurd h (by simp)

theorem npMulS_zero_mem (w : List ℝ) (c : ℝ) (h0 : ∀ x ∈ w, x = 0) :
    ∀ x ∈ npMulS w c, x = 0 := by
  intro x hx
  obtain ⟨y, hy, rfl⟩ := List.mem_map.mp hx
  rw [h0 y hy, zero_mul]

theorem npZeros_mem (n : ℕ) : ∀ x ∈ npZeros n, x = (0:ℝ) := by
  intro x hx
  exact List.eq_of_mem_replicate hx

theorem update_position_preserves (b : CelestialBody) (dtv : ℝ) (b' : CelestialBody)
    (ha : ∀ x ∈ b.acceleration, x = 0) (hv : ∀ x ∈ b.velocity, x = 0)
    (h : b.update_position dtv = some b') :
    b'.position = b.position ∧ b'.velocity = b.velocity := by
  unfold CelestialBody.update_position at h
  cases hvel : vecAdd b.velocity (npMulS b.acceleration dtv) with
  | none => rw [hvel] at h; exact absurd h (by simp)
  | some vel =>
    rw [hvel, Option.some_bind] at h
    have hveq : vel = b.velocity := vecAdd_right_zero _ _ _ hvel (npMulS_zero_mem _ _ ha)
    cases hpos : vecAdd b.position (npMulS vel dtv) with
    | none => rw [hpos] at h; exact absurd h (by simp)
    | some pos =>
      rw [hpos, Option.some_bind] at h
      have hpeq : pos = b.position := by
        refine vecAdd_right_zero _ _ _ hpos (npMulS_zero_mem _ _ ?_)
        rw [hveq]; exact hv
      obtain rfl : _ = b' := by injection h
      simp [hveq, hpeq]

theorem update_preserves_central (s : SimState) (c : CelestialBody)
    (rest : List CelestialBody) (hb : s.bodies = c :: rest)
    (hv : ∀ x ∈ c.velocity, x = 0) (d : ℝ) (s' : SimState)
    (h : WorldSimulator.update s d = some s') :
    ∃ c' rest', s'.bodies = c' :: rest' ∧
      c'.position = c.position ∧ c'.velocity = c.velocity := by
  unfold WorldSimulator.update at h
  by_cases hp : s.paused
  · rw [if_pos hp] at h
    obtain rfl : s = s' := by injection h
    exact ⟨c, rest, hb, rfl, rfl⟩
  · rw [if_neg hp, hb] at h
    rw [WorldSimulator.update_accelerations] at h
    have hc : CelestialBody.update_acceleration c c true WorldSimulator.scale
        s.use_constant_acceleration = some { c with acceleration := npZeros 2 } := rfl
    rw [hc, Option.some_bind] at h
    cases hrest : mapOpt
        (fun b => b.update_acceleration c false WorldSimulator.scale
          s.use_constant_acceleration) rest with
    | none => rw [hrest] at h; exact absurd h (by simp)
    | some rest1 =>
      rw [hrest, Option.some_bind, Option.some_bind] at h
      set c1 : CelestialBody := { c with acceleration := npZeros 2 } with hc1
      cases hc2 : c1.update_position WorldSimulator.dt with
      | none => rw [mapOpt, hc2] at h; exact absurd h (by simp)
      | some c2 =>
        cases hrest2 : mapOpt (fun b => b.update_position WorldSimulator.dt) rest1 with
        | none => rw [mapOpt, hc2, hrest2] at h; simp at h
        | some rest2 =>
          rw [mapOpt, hc2, hrest2] at h
          simp only [Option.some_bind] at h
          obtain rfl : _ = s' := by injection h
          have hpair := update_position_preserves c1 WorldSimulator.dt c2
            (by simpa [hc1] using npZeros_mem 2) (by simpa [hc1] using hv) hc2
          exact ⟨c2, rest2, rfl, hpair.1, hpair.2⟩

theorem updateIter_central : ∀ (ds : List ℝ) (s : SimState) (c : CelestialBody)
    (rest : List CelestialBody), s.bodies = c :: rest → (∀ x ∈ c.velocity, x = 0) →
    ∀ (s' : SimState), updateIter ds s = some s' →
    ∃ c' rest', s'.bodies = c' :: rest' ∧
      c'.position = c.position ∧ c'.velocity = c.velocity := by
  intro ds
  induction ds with
  | nil =>
    intro s c rest hb hv s' h
    obtain rfl : s = s' := by injection h
    exact ⟨c, rest, hb, rfl, rfl⟩
  | cons d ds ih =>
    intro s c rest hb hv s' h
    unfold updateIter at h
    cases hu : WorldSimulator.update s d with
    | none => rw [hu] at h; exact absurd h (by simp)
    | some s1 =>
      rw [hu, Option.some_bind] at h
      obtain ⟨c1, rest1, hb1, hp1, hv1⟩ := update_preserves_central s c rest hb hv d s1 hu
      obtain ⟨c2, rest2, hb2, hp2, hv2⟩ :=
        ih s1 c1 rest1 hb1 (by rw [hv1]; exact hv) s' h
      exact ⟨c2, rest2, hb2, by rw [hp2, hp1], by rw [hv2, hv1]⟩

theorem update_position_trail (b : CelestialBody) (dtv : ℝ) (b' : CelestialBody)
    (h : b.update_position dtv = some b') :
    b'.max_trail_length = b.max_trail_length ∧
    b'.trail = (if b.max_trail_length < (b.trail ++ [b'.position]).length
      then (b.trail ++ [b'.position]).drop 1 else b.trail ++ [b'.position]) := by
  unfold CelestialBody.update_position at h
  cases hvel : vecAdd b.velocity (npMulS b.acceleration dtv) with
  | none => rw [hvel] at h; exact absurd h (by simp)
  | some vel =>
    rw [hvel, Option.some_bind] at h
    cases hpos : vecAdd b.position (npMulS vel dtv) with
    | none => rw [hpos] at h; exact absurd h (by simp)
    | some pos =>
      rw [hpos, Option.some_bind] at h
      obtain rfl : _ = b' := by injection h
      exact ⟨rfl, rfl⟩

theorem updatePosIter_trail_le : ∀ (ds : List ℝ) (b b' : CelestialBody),
    b.trail.length ≤ b.max_trail_length → updatePosIter ds b = some b' →
    b'.trail.length ≤ b.max_trail_length ∧ b'.max_trail_length = b.max_trail_length := by
  intro ds
  induction ds with
  | nil =>
    intro b b' hle h
    obtain rfl : b = b' := by injection h
    exact ⟨hle, rfl⟩
  | cons d ds ih =>
    intro b b' hle h
    unfold updatePosIter at h
    cases hu : b.update_position d with
    | none => rw [hu] at h; exact absurd h (by simp)
    | some b1 =>
      rw [hu, Option.some_bind] at h
      obtain ⟨hmax, htrail⟩ := update_position_trail b d b1 hu
      have h1 : b1.trail.length ≤ b.max_trail_length := by
        rw [htrail]
        split
        · rename_i hgt
          simp only [List.length_drop, List.length_append, List.length_cons,
            List.length_nil]
          omega
        · rename_i hng
          omega
      obtain ⟨hfin, hmax2⟩ := ih b1 b' (by rw [hmax]; exact h1) h
      exact ⟨by rw [← hmax]; exact hfin, by rw [hmax2, hmax]⟩

theorem sum_sq_nonneg (v : List ℝ) : 0 ≤ (v.map (fun x => x ^ 2)).sum := by
  refine List.sum_nonneg ?_
  intro x hx
  obtain ⟨y, _, rfl⟩ := List.mem_map.mp hx
  positivity

theorem npNorm_sMul (c : ℝ) (v : List ℝ) : npNorm (npSMul c v) = |c| * npNorm v := by
  unfold npNorm npSMul
  rw [List.map_map]
  have h1 : ((fun x => x ^ 2) ∘ fun x => c * x) = fun x => c ^ 2 * x ^ 2 := by
    funext x; simp [mul_pow]
  rw [h1, List.sum_map_mul_left, Real.sqrt_mul (sq_nonneg c), Real.sqrt_sq_eq_abs]

theorem npNorm_divS (v : List ℝ) (c : ℝ) : npNorm (npDivS v c) = npNorm v / |c| := by
  unfold npNorm npDivS
  rw [List.map_map]
  have h1 : ((fun x => x ^ 2) ∘ fun x => x / c) = fun x => x ^ 2 * (c ^ 2)⁻¹ := by
    funext x; simp only [Function.comp_apply, div_eq_mul_inv]; ring
  rw [h1, List.sum_map_mul_right, Real.sqrt_mul (sum_sq_nonneg v), Real.sqrt_inv,
    Real.sqrt_sq_eq_abs, div_eq_mul_inv]

theorem npNorm_34 : npNorm [(3:ℝ), 4] = 5 := by
  unfold npNorm
  rw [show ((([(3:ℝ), 4]).map (fun x => x ^ 2)).sum) = 25 by norm_num [List.sum_cons]]
  rw [show (25:ℝ) = 5 ^ 2 by norm_num, Real.sqrt_sq (by norm_num)]

theorem npNorm_00 : npNorm [(0:ℝ), 0] = 0 := by
  unfold npNorm
  rw [show ((([(0:ℝ), 0]).map (fun x => x ^ 2)).sum) = 0 by norm_num]
  exact Real.sqrt_zero

theorem zipWith_sub_self (p : List ℝ) :
    List.zipWith (fun x y => x - y) p p = p.map (fun _ => (0:ℝ)) := by
  induction p with
  | nil => rfl
  | cons a as ih => simp [ih]

theorem npDivS_zero_map (p : List ℝ) (c : ℝ) :
    npDivS (p.map (fun _ => (0:ℝ))) c = p.map (fun _ => (0:ℝ)) := by
  unfold npDivS
  induction p with
  | nil => rfl
  | cons a as ih => simp only [List.map_cons, zero_div, ih]

theorem npSMul_zero_map (c : ℝ) (p : List ℝ) :
    npSMul c (p.map (fun _ => (0:ℝ))) = p.map (fun _ => (0:ℝ)) := by
  unfold npSMul
  induction p with
  | nil => rfl
  | cons a as ih => simp only [List.map_cons, mul_zero, ih]

theorem npNorm_zero_map (p : List ℝ) : npNorm (p.map (fun _ => (0:ℝ))) = 0 := by
  unfold npNorm
  rw [List.map_map]
  have h : ((p.map ((fun x => x ^ 2) ∘ fun _ => (0:ℝ))).sum) = 0 := by
    induction p with
    | nil => rfl
    | cons a as ih => simpa using ih
  rw [h]
  exact Real.sqrt_zero

/-- Claim C1 (refuted by the code, crash evaluation): on the simulator's
own initial solar system, one unpaused `update` call raises before any
body is integrated — the central body's 3-component velocity cannot be
added to `acceleration * dt`, which has 2 components because
`CelestialBody.__init__` sets `acceleration = np.zeros(2)` — so no body
ever gets the claimed semi-implicit Euler step. -/
theorem update_initial_unpaused_eq_none :
    WorldSimulator.update { WorldSimulator.initial_state with paused := false } 100 = none := by
  simp [WorldSimulator.update, WorldSimulator.initial_state,
    WorldSimulator.update_accelerations,
    WorldSimulator.create_solar_system, WorldSimulator.num_outer_bodies,
    WorldSimulator.initial_sun_pos, CelestialBody.construct,
    CelestialBody.update_acceleration, CelestialBody.calculate_force,
    CelestialBody.update_position, vecAdd, vecSub, npMulS, npSMul, npDivS,
    npZeros, mapOpt, List.range_succ, WorldSimulator.dt]

/-- Claim C2: for a state whose body list has the central body at index 0
(with the all-zero velocity the world builder gives it), every
`update_acceleration` call on the central body yields the zero
acceleration vector, and the central body's position and velocity are
unchanged by any sequence of `update` calls, paused or not, that
completes. -/
theorem central_body_invariant (s : SimState) (c : CelestialBody)
    (rest : List CelestialBody) (hb : s.bodies = c :: rest)
    (hv : ∀ x ∈ c.velocity, x = (0:ℝ)) :
    (∀ (sc : ℝ) (fl : Bool),
      c.update_acceleration c true sc fl = some { c with acceleration := npZeros 2 } ∧
      ∀ x ∈ npZeros 2, x = (0:ℝ)) ∧
    (∀ (ds : List ℝ) (s' : SimState), updateIter ds s = some s' →
      ∃ c' rest', s'.bodies = c' :: rest' ∧
        c'.position = c.position ∧ c'.velocity = c.velocity) := by
  constructor
  · intro sc fl
    exact ⟨rfl, npZeros_mem 2⟩
  · intro ds s' h
    exact updateIter_central ds s c rest hb hv s' h

/-- Witness for C2 at a concrete two-body state. -/
theorem central_body_invariant_witness :
    ∃ c' rest', wState.bodies = c' :: rest' ∧
      c'.position = wBody0.position ∧ c'.velocity = wBody0.velocity :=
  (central_body_invariant wState wBody0 [wBody1] rfl
    (by intro x hx; simpa [wBody0, CelestialBody.construct] using hx)).2
    [3] wState (by simp [updateIter, WorldSimulator.update, wState])

/-- Claim C3 (refuted by the code, evaluated at the failing input): every
body that `create_solar_system` constructs has 3-dimensional position and
velocity but a 2-dimensional acceleration, so the equal-dimensionality
invariant fails already at construction. -/
theorem create_solar_system_dimension_mismatch :
    ∀ b ∈ WorldSimulator.create_solar_system,
      b.position.length = 3 ∧ b.velocity.length = 3 ∧ b.acceleration.length = 2 := by
  intro b hb
  simp only [WorldSimulator.create_solar_system, WorldSimulator.num_outer_bodies,
    show List.range 1 = [0] from rfl, List.map_cons, List.map_nil, List.cons_append,
    List.nil_append, List.mem_cons, List.mem_singleton, List.not_mem_nil,
    or_false] at hb
  rcases hb with rfl | rfl <;>
    simp [CelestialBody.construct, WorldSimulator.initial_sun_pos, npZeros]

/-- Witness for C3 at the central body. -/
theorem create_solar_system_dimension_mismatch_witness :
    solarCenter.position.length = 3 ∧ solarCenter.velocity.length = 3 ∧
      solarCenter.acceleration.length = 2 :=
  create_solar_system_dimension_mismatch solarCenter
    (by simp [solarCenter, WorldSimulator.create_solar_system])

/-- Claim C4: starting from a body whose trail respects the cap of 500,
no sequence of `update_position` calls ever pushes the trail past 500
entries; and when the trail already holds exactly 500 entries, the next
successful call drops the oldest (front) entry and appends the new
position at the back, which is then the last entry. -/
theorem trail_bounded_fifo (b : CelestialBody)
    (hmax : b.max_trail_length = 500) (hlen : b.trail.length ≤ 500) :
    (∀ (ds : List ℝ) (b' : CelestialBody), updatePosIter ds b = some b' →
      b'.trail.length ≤ 500) ∧
    (∀ (d : ℝ) (b' : CelestialBody), b.trail.length = 500 →
      b.update_position d = some b' →
      b'.trail = b.trail.drop 1 ++ [b'.position] ∧
      b'.trail.length = 500 ∧ b'.trail.getLast? = some b'.position) := by
  constructor
  · intro ds b' h
    have := updatePosIter_trail_le ds b b' (by rw [hmax]; exact hlen) h
    omega
  · intro d b' hfull h
    obtain ⟨hm, htrail⟩ := update_position_trail b d b' h
    have hcond : b.max_trail_length < (b.trail ++ [b'.position]).length := by
      simp [hmax, hfull]
    rw [if_pos hcond] at htrail
    have hdrop : (b.trail ++ [b'.position]).drop 1 = b.trail.drop 1 ++ [b'.position] :=
      List.drop_append_of_le_length (by omega)
    refine ⟨by rw [htrail, hdrop], ?_, ?_⟩
    · rw [htrail]
      simp [hfull]
    · rw [htrail, hdrop]
      exact List.getLast?_concat _

/-- Witness for C4 at a concrete freshly-constructed body. -/
theorem trail_bounded_fifo_witness :
    tBody.max_trail_length = 500 ∧ tBody.trail.length ≤ 500 :=
  ⟨rfl, (trail_bounded_fifo tBody rfl (by simp [tBody, CelestialBody.construct])).1
    [] tBody rfl⟩

/-- Counterexample to claim C5 as stated: for two bodies at identical
coordinates the returned force is the zero vector, whose magnitude 0
differs from the claimed `G * other.mass * self.mass / max(distance,
1e-10)^2`. -/
theorem calculate_force_claim_counterexample :
    cex5A.calculate_force cex5B 1 false = some [0, 0] ∧
    npNorm [(0:ℝ), 0] ≠
      1.0 * cex5B.mass * cex5A.mass / (max (npNorm [(0:ℝ), 0]) 1e-10) ^ 2 := by
  constructor
  · simp [CelestialBody.calculate_force, cex5A, cex5B, CelestialBody.construct,
      vecSub, npDivS, npSMul, sub_self, zero_div, mul_zero]
  · rw [npNorm_00, max_eq_right (by norm_num : (0:ℝ) ≤ 1e-10)]
    simp [cex5B, cex5A, CelestialBody.construct]
    norm_num

/-- Claim C5 (amended): for two bodies of positive mass whose separation
`r` has norm at least `1e-10`, the force on `self` from `other` is the
scalar `G * other.mass * self.mass / distance^2` (with `G = 1.0`) times
the unit vector from `self` toward `other`; that scalar is the force's
magnitude and the direction factor has norm 1.  Below the `1e-10` floor
the code instead scales the force down to zero, as the counterexample
shows. -/
theorem calculate_force_spec (self other : CelestialBody) (sc : ℝ) (fl : Bool)
    (r : List ℝ) (hr : vecSub other.position self.position = some r)
    (hd : (1e-10 : ℝ) ≤ npNorm r) (hm1 : 0 < self.mass) (hm2 : 0 < other.mass) :
    self.calculate_force other sc fl =
      some (npSMul (1.0 * other.mass * self.mass / npNorm r ^ 2) (npDivS r (npNorm r))) ∧
    npNorm (npSMul (1.0 * other.mass * self.mass / npNorm r ^ 2) (npDivS r (npNorm r))) =
      1.0 * other.mass * self.mass / npNorm r ^ 2 ∧
    npNorm (npDivS r (npNorm r)) = 1 := by
  have hpos : (0:ℝ) < npNorm r := lt_of_lt_of_le (by norm_num) hd
  have hmax : max (npNorm r) 1e-10 = npNorm r := max_eq_left hd
  have hunit : npNorm (npDivS r (npNorm r)) = 1 := by
    rw [npNorm_divS, abs_of_pos hpos, div_self (ne_of_gt hpos)]
  refine ⟨?_, ?_, hunit⟩
  · unfold CelestialBody.calculate_force
    rw [hr, Option.some_bind]
    simp only [hmax]
  · rw [npNorm_sMul, hunit, mul_one, abs_of_pos]
    positivity

/-- Witness for C5 at two concrete bodies 5 apart. -/
theorem calculate_force_spec_witness :
    npNorm (npSMul (1.0 * oW.mass * sW.mass / npNorm [(3:ℝ), 4] ^ 2)
      (npDivS [(3:ℝ), 4] (npNorm [(3:ℝ), 4]))) =
      1.0 * oW.mass * sW.mass / npNorm [(3:ℝ), 4] ^ 2 ∧
    npNorm (npDivS [(3:ℝ), 4] (npNorm [(3:ℝ), 4])) = 1 :=
  (calculate_force_spec sW oW 1 false [3, 4]
    (by simp [sW, oW, CelestialBody.construct, vecSub])
    (by rw [npNorm_34]; norm_num)
    (by simp [sW, CelestialBody.construct])
    (by simp [oW, CelestialBody.construct])).2

/-- Counterexample to claim C6 as stated: at identical coordinates the
force comes back as the zero vector, so its magnitude is 0, not the
claimed `G * m1 * m2 / (1e-10)^2`. -/
theorem coincident_force_magnitude_counterexample :
    cex6A.calculate_force cex6B 1 false = some [0, 0] ∧
    npNorm [(0:ℝ), 0] ≠ 1.0 * cex6B.mass * cex6A.mass / (1e-10 : ℝ) ^ 2 := by
  constructor
  · simp [CelestialBody.calculate_force, cex6A, cex6B, CelestialBody.construct,
      vecSub, npDivS, npSMul, sub_self, zero_div, mul_zero]
  · rw [npNorm_00]
    simp [cex6B, cex6A, CelestialBody.construct]
    norm_num

/-- Claim C6 (amended): for two bodies at identical coordinates the force
computation succeeds and returns the all-zero vector — a finite,
well-defined value (in exact arithmetic no NaN or infinity can arise,
since the floored distance `1e-10` is positive) — and its magnitude is 0,
not `G*m1*m2/(1e-10)^2`. -/
theorem coincident_force_zero (self other : CelestialBody) (sc : ℝ) (fl : Bool)
    (h : other.position = self.position) :
    self.calculate_force other sc fl = some (self.position.map (fun _ => (0:ℝ))) ∧
    npNorm (self.position.map (fun _ => (0:ℝ))) = 0 := by
  refine ⟨?_, npNorm_zero_map _⟩
  unfold CelestialBody.calculate_force
  have hsub : vecSub other.position self.position =
      some (self.position.map (fun _ => (0:ℝ))) := by
    unfold vecSub
    rw [h, if_pos rfl, zipWith_sub_self]
  rw [hsub, Option.some_bind]
  simp only [npDivS_zero_map, npSMul_zero_map]

/-- Witness for C6 at two concrete coincident bodies. -/
theorem coincident_force_zero_witness :
    wCoA.calculate_force wCoB 1 false = some (wCoA.position.map (fun _ => (0:ℝ))) ∧
    npNorm (wCoA.position.map (fun _ => (0:ℝ))) = 0 :=
  coincident_force_zero wCoA wCoB 1 false (by simp [wCoA, wCoB, CelestialBody.construct])

/-- Claim C7: after `reset_simulation` from any state, the clock is 0,
the simulator is paused, and the body list is exactly the one
`create_solar_system` deterministically rebuilds — every body has an
empty trail and carries the world builder's initial position and
velocity. -/
theorem reset_simulation_spec (s : SimState) :
    (WorldSimulator.reset_simulation s).simulation_time = 0 ∧
    (WorldSimulator.reset_simulation s).paused = true ∧
    (WorldSimulator.reset_simulation s).bodies = WorldSimulator.create_solar_system ∧
    ∀ b ∈ (WorldSimulator.reset_simulation s).bodies,
      b.trail = [] ∧ b.position = b.initial_position ∧ b.velocity = b.initial_velocity := by
  refine ⟨rfl, rfl, rfl, ?_⟩
  intro b hb
  simp only [WorldSimulator.reset_simulation, WorldSimulator.create_solar_system,
    WorldSimulator.num_outer_bodies, show List.range 1 = [0] from rfl, List.map_cons,
    List.map_nil, List.cons_append, List.nil_append, List.mem_cons,
    List.mem_singleton, List.not_mem_nil, or_false] at hb
  rcases hb with rfl | rfl <;> exact ⟨rfl, rfl, rfl⟩

/-- Witness for C7 at a concrete running state. -/
theorem reset_simulation_spec_witness :
    (WorldSimulator.reset_simulation rState).simulation_time = 0 ∧
    (WorldSimulator.reset_simulation rState).paused = true :=
  ⟨(reset_simulation_spec rState).1, (reset_simulation_spec rState).2.1⟩

/-- Claim C8: while paused, any sequence of `update` calls, with any host
frame `dt` values, returns the state completely unchanged — bodies
(position, velocity, acceleration, trail) and `simulation_time`
included. -/
theorem paused_update_noop (ds : List ℝ) (s : SimState) (h : s.paused = true) :
    updateIter ds s = some s := by
  induction ds with
  | nil => rfl
  | cons d ds ih =>
    unfold updateIter
    rw [show WorldSimulator.update s d = some s by
      unfold WorldSimulator.update; rw [if_pos h], Option.some_bind]
    exact ih

/-- Witness for C8 at a concrete paused state and two host dt values. -/
theorem paused_update_noop_witness :
    wState.paused = true ∧ updateIter [1, 100] wState = some wState :=
  ⟨rfl, paused_update_noop [1, 100] wState rfl⟩

/-- Claim C9: the host-frame `dt` argument has no influence on `update` —
any two argument values give identical results — and a completed unpaused
update advances `simulation_time` by the fixed internal tick
`WorldSimulator.dt`, never by the argument. -/
theorem hostFrameDt_irrelevant :
    (∀ (s : SimState) (d₁ d₂ : ℝ), WorldSimulator.update s d₁ = WorldSimulator.update s d₂) ∧
    (∀ (s s' : SimState) (d : ℝ), s.paused = false → WorldSimulator.update s d = some s' →
      s'.simulation_time = s.simulation_time + WorldSimulator.dt) := by
  refine ⟨fun _ _ _ => rfl, ?_⟩
  intro s s' d hp h
  unfold WorldSimulator.update at h
  rw [hp] at h
  simp only [Bool.false_eq_true, if_false] at h
  cases h1 : WorldSimulator.update_accelerations s.use_constant_acceleration s.bodies with
  | none => rw [h1] at h; exact absurd h (by simp)
  | some bs1 =>
    rw [h1, Option.some_bind] at h
    cases h2 : mapOpt (fun b => b.update_position WorldSimulator.dt) bs1 with
    | none => rw [h2] at h; exact absurd h (by simp)
    | some bs2 =>
      rw [h2, Option.some_bind] at h
      obtain rfl : _ = s' := by injection h
      rfl

/-- Witness for C9 at a concrete unpaused state. -/
theorem hostFrameDt_irrelevant_witness :
    WorldSimulator.update eState 100 = WorldSimulator.update eState 7 ∧
    eState.paused = false :=
  ⟨hostFrameDt_irrelevant.1 eState 100 7, rfl⟩

/-- Claim C10: the `use_constant_acceleration` flag has no influence on
`calculate_force` or `update_acceleration` — flipping it yields
identical forces and accelerations. -/
theorem use_constant_acceleration_irrelevant :
    ∀ (self center : CelestialBody) (sc : ℝ) (f₁ f₂ : Bool),
      self.calculate_force center sc f₁ = self.calculate_force center sc f₂ ∧
      ∀ (isCenter : Bool),
        self.update_acceleration center isCenter sc f₁ =
          self.update_acceleration center isCenter sc f₂ :=
  fun _ _ _ _ _ => ⟨rfl, fun _ => rfl⟩
